import Mathlib

/-!
AUntitledCharacter: slide maneuver and health counter.

A shallow embedding of `Source/Untitled/Private/UntitledCharacter.cpp`.

* `int32` members (`Health`, `TotalHealth`, the argument of `AddHealth`) are
  integers; the one arithmetic operation on them, `Health += HealthToAdd`,
  is taken modulo `2 ^ 32` (`wrapInt32`).
* `float` members (`SlideSpeed`, `SlideFriction`, `MaxWalkSpeed`, the 2D
  velocity magnitude) are exact rationals; the literal `.05` is `1 / 20`.
* Engine calls are modelled by their effect on the members used here:
  `CharacterMovement->Velocity.Size2D()` reads a field, `GetActorRotation()`
  reads a field, `AddMovementInput(Direction, Scale)` appends a request to
  a log, and `Super::Tick` leaves all of these members untouched.
-/

namespace Untitled

/-- Engine rotator: pitch, yaw and roll. -/
structure FRotator where
  Pitch : ℚ
  Yaw : ℚ
  Roll : ℚ
  deriving DecidableEq, Repr

/-- One call `AddMovementInput(Direction, ScaleValue)`. The direction is kept
symbolically as the rotator whose `Vector()` it is. -/
structure MovementInput where
  DirectionOf : FRotator
  ScaleValue : ℚ
  deriving DecidableEq, Repr

/-- The members of `UCharacterMovementComponent` the character code touches. -/
structure UCharacterMovementComponent where
  MaxWalkSpeed : ℚ
  VelocitySize2D : ℚ
  deriving DecidableEq, Repr

/-- The members of `AUntitledCharacter` read or written by the source file. -/
structure AUntitledCharacter where
  Health : Int
  TotalHealth : Int
  IsSliding : Bool
  SlideSpeed : ℚ
  SlideFriction : ℚ
  CharacterMovement : UCharacterMovementComponent
  ActorRotation : FRotator
  MovementInputs : List MovementInput
  deriving DecidableEq, Repr

/-- Two-complement wrap of an integer into the `int32` range. -/
def wrapInt32 (x : Int) : Int :=
  (x + 2147483648) % 4294967296 - 2147483648

/-- The values an `int32` can hold. -/
def IsInt32 (x : Int) : Prop :=
  -2147483648 ≤ x ∧ x ≤ 2147483647

instance (x : Int) : Decidable (IsInt32 x) := by
  unfold IsInt32; infer_instance

/-- The part of the constructor that sets members of the model (lines 41-42):
`TotalHealth = 3; Health = TotalHealth;`. The members the constructor does
not assign are taken from `s`. -/
def construct (s : AUntitledCharacter) : AUntitledCharacter :=
  let s1 := { s with TotalHealth := 3 }
  { s1 with Health := s1.TotalHealth }

/-- `AUntitledCharacter::CanAddHealth` (lines 169-176). -/
def CanAddHealth (s : AUntitledCharacter) : Bool :=
  if s.Health ≥ s.TotalHealth then false else true

/-- `AUntitledCharacter::AddHealth` (lines 157-167). -/
def AddHealth (s : AUntitledCharacter) (HealthToAdd : Int) : AUntitledCharacter :=
  if CanAddHealth s then
    let s1 := { s with Health := wrapInt32 (s.Health + HealthToAdd) }
    if s1.Health > s1.TotalHealth then
      { s1 with Health := s1.TotalHealth }
    else
      s1
  else
    s

/-- `AUntitledCharacter::Slide` (lines 178-188). -/
def Slide (s : AUntitledCharacter) : AUntitledCharacter :=
  let CurrentSpeed := s.CharacterMovement.VelocitySize2D
  let s1 :=
    if CurrentSpeed > 10 then
      { s with SlideFriction := 5, SlideSpeed := CurrentSpeed + 600 }
    else
      s
  { s1 with IsSliding := true }

/-- `AUntitledCharacter::StopSliding` (lines 190-195). -/
def StopSliding (s : AUntitledCharacter) : AUntitledCharacter :=
  let s1 := { s with CharacterMovement := { s.CharacterMovement with MaxWalkSpeed := 600 } }
  { s1 with IsSliding := false }

/-- `Super::Tick(DeltaTime)`: the engine base-class tick. It is engine code;
it assigns none of the members modelled here. -/
def SuperTick (s : AUntitledCharacter) (_DeltaTime : ℚ) : AUntitledCharacter :=
  s

/-- `AUntitledCharacter::Tick` (lines 48-67). -/
def Tick (s0 : AUntitledCharacter) (DeltaTime : ℚ) : AUntitledCharacter :=
  let s := SuperTick s0 DeltaTime
  if s.IsSliding then
    let Rotation := s.ActorRotation
    let YawRotation : FRotator := ⟨0, Rotation.Yaw, 0⟩
    let s1 :=
      if s.SlideSpeed < 0 then
        { s with IsSliding := false, SlideSpeed := 0 }
      else
        s
    let s2 := { s1 with
      CharacterMovement := { s1.CharacterMovement with MaxWalkSpeed := s1.SlideSpeed } }
    let s3 := { s2 with SlideSpeed := s2.SlideSpeed - s2.SlideFriction }
    let s4 := { s3 with SlideFriction := s3.SlideFriction + 1 / 20 }
    { s4 with MovementInputs := s4.MovementInputs ++ [⟨YawRotation, 1⟩] }
  else
    s

/-- The state after `k` successive per-frame updates, frame `i` being called
with `DeltaTime = dts i`. -/
def tickN (dts : ℕ → ℚ) : ℕ → AUntitledCharacter → AUntitledCharacter
  | 0, s => s
  | k + 1, s => Tick (tickN dts k s) (dts k)

/-- The data-model invariant `0 <= Health <= TotalHealth`. -/
def HealthInvariant (s : AUntitledCharacter) : Prop :=
  0 ≤ s.Health ∧ s.Health ≤ s.TotalHealth

instance (s : AUntitledCharacter) : Decidable (HealthInvariant s) := by
  unfold HealthInvariant; infer_instance

/-- A sample character: two health out of three, standing still. -/
def sampleCharacter : AUntitledCharacter :=
  { Health := 2, TotalHealth := 3, IsSliding := false, SlideSpeed := 0, SlideFriction := 0,
    CharacterMovement := ⟨600, 0⟩, ActorRotation := ⟨0, 90, 0⟩, MovementInputs := [] }

/-! Health management -/

theorem wrapInt32_of_IsInt32 (x : Int) (h : IsInt32 x) : wrapInt32 x = x := by
  unfold IsInt32 at h
  unfold wrapInt32
  omega

theorem CanAddHealth_iff (s : AUntitledCharacter) :
    CanAddHealth s = true ↔ s.Health < s.TotalHealth := by
  unfold CanAddHealth
  split <;> simp <;> omega

theorem AddHealth_of_can (s : AUntitledCharacter) (n : Int) (h : s.Health < s.TotalHealth) :
    AddHealth s n = { s with Health := min (wrapInt32 (s.Health + n)) s.TotalHealth } := by
  have hc : CanAddHealth s = true := (CanAddHealth_iff s).2 h
  unfold AddHealth
  simp only [hc, if_true]
  by_cases hgt : wrapInt32 (s.Health + n) > s.TotalHealth
  · simp only [hgt, if_true]
    rw [min_eq_right (le_of_lt hgt)]
  · simp only [hgt, if_false]
    rw [min_eq_left (not_lt.1 hgt)]

theorem AddHealth_of_cannot (s : AUntitledCharacter) (n : Int) (h : s.TotalHealth ≤ s.Health) :
    AddHealth s n = s := by
  have hc : CanAddHealth s = false := by
    cases hb : CanAddHealth s
    · rfl
    · have := (CanAddHealth_iff s).1 hb
      omega
  unfold AddHealth
  simp [hc]

/-- C1 (as amended): when `Health < TotalHealth` (`CanAddHealth` is true) the
new `Health` is the minimum of the `int32` sum `Health + n` (taken modulo
`2 ^ 32`) and `TotalHealth`, which is `min (Health + n) TotalHealth` whenever
the sum fits in an `int32`; when `Health >= TotalHealth` the whole state is
unchanged; `TotalHealth` never changes. -/
theorem AddHealth_contract (s : AUntitledCharacter) (n : Int) :
    (s.Health < s.TotalHealth →
      CanAddHealth s = true ∧
      (AddHealth s n).Health = min (wrapInt32 (s.Health + n)) s.TotalHealth) ∧
    (s.Health < s.TotalHealth → IsInt32 (s.Health + n) →
      (AddHealth s n).Health = min (s.Health + n) s.TotalHealth) ∧
    (s.TotalHealth ≤ s.Health → CanAddHealth s = false ∧ AddHealth s n = s) ∧
    (AddHealth s n).TotalHealth = s.TotalHealth := by
  refine ⟨fun h => ⟨(CanAddHealth_iff s).2 h, ?_⟩, fun h hr => ?_, fun h => ⟨?_, ?_⟩, ?_⟩
  · rw [AddHealth_of_can s n h]
  · rw [AddHealth_of_can s n h, wrapInt32_of_IsInt32 _ hr]
  · cases hb : CanAddHealth s
    · rfl
    · have := (CanAddHealth_iff s).1 hb
      omega
  · exact AddHealth_of_cannot s n h
  · rcases lt_or_le s.Health s.TotalHealth with h | h
    · rw [AddHealth_of_can s n h]
    · rw [AddHealth_of_cannot s n h]

/-- C1, witness: a heal of 5 from 2 out of 3 is clamped to 3; a full-health
character is left as it is. -/
theorem AddHealth_contract_witness :
    (AddHealth sampleCharacter 5).Health = min (2 + 5) 3 ∧
    AddHealth { sampleCharacter with Health := 3 } 5 = { sampleCharacter with Health := 3 } :=
  ⟨(AddHealth_contract sampleCharacter 5).2.1 (by decide) (by decide),
   ((AddHealth_contract { sampleCharacter with Health := 3 } 5).2.2.1 (by decide)).2⟩

/-- C1, counterexample: with `Health = 2`, `TotalHealth = 3` and the `int32`
argument `2147483647`, `CanAddHealth` is true, yet the new `Health` is
`-2147483647`, not `min (2 + 2147483647) 3 = 3`. -/
theorem AddHealth_min_fails_on_overflow :
    IsInt32 sampleCharacter.Health ∧ IsInt32 sampleCharacter.TotalHealth ∧
    IsInt32 2147483647 ∧ CanAddHealth sampleCharacter = true ∧
    (AddHealth sampleCharacter 2147483647).Health = -2147483647 ∧
    (AddHealth sampleCharacter 2147483647).Health
      ≠ min (sampleCharacter.Health + 2147483647) sampleCharacter.TotalHealth := by
  decide

/-- C7: for `n >= 0`, from a state with `Health <= TotalHealth`, the `Health`
after `AddHealth n` is at most `TotalHealth`; the sum is taken modulo `2 ^ 32`,
so the bound also covers an overflowing `Health + n`. -/
theorem AddHealth_le_TotalHealth (s : AUntitledCharacter) (n : Int) (_hn : 0 ≤ n)
    (h : s.Health ≤ s.TotalHealth) :
    (AddHealth s n).Health ≤ s.TotalHealth ∧
    (AddHealth s n).Health ≤ (AddHealth s n).TotalHealth := by
  rcases lt_or_le s.Health s.TotalHealth with hlt | hge
  · rw [AddHealth_of_can s n hlt]
    exact ⟨min_le_right _ _, min_le_right _ _⟩
  · rw [AddHealth_of_cannot s n hge]
    exact ⟨h, h⟩

/-- C7, witness: an overflowing heal of `2147483647` from 2 out of 3. -/
theorem AddHealth_le_TotalHealth_witness :
    (0 : Int) ≤ 2147483647 ∧ sampleCharacter.Health ≤ sampleCharacter.TotalHealth ∧
    (AddHealth sampleCharacter 2147483647).Health ≤ sampleCharacter.TotalHealth :=
  ⟨by decide, by decide,
   (AddHealth_le_TotalHealth sampleCharacter 2147483647 (by decide) (by decide)).1⟩

/-! The members each operation leaves alone -/

theorem Slide_Health (s : AUntitledCharacter) :
    (Slide s).Health = s.Health ∧ (Slide s).TotalHealth = s.TotalHealth := by
  unfold Slide
  dsimp only
  split_ifs <;> exact ⟨rfl, rfl⟩

theorem StopSliding_Health (s : AUntitledCharacter) :
    (StopSliding s).Health = s.Health ∧ (StopSliding s).TotalHealth = s.TotalHealth :=
  ⟨rfl, rfl⟩

theorem Tick_Health (s : AUntitledCharacter) (dt : ℚ) :
    (Tick s dt).Health = s.Health ∧ (Tick s dt).TotalHealth = s.TotalHealth := by
  unfold Tick SuperTick
  dsimp only
  split_ifs <;> exact ⟨rfl, rfl⟩

/-- C8 (as amended): `0 <= Health <= TotalHealth` holds at creation
(`Health = TotalHealth = 3`); `Slide`, `StopSliding` and `Tick` preserve it;
`AddHealth n` keeps `Health <= TotalHealth` for every `n`, and keeps the whole
invariant when `Health = TotalHealth` or `0 <= Health + n <= 2147483647`. -/
theorem HealthInvariant_preserved :
    (∀ s : AUntitledCharacter, HealthInvariant (construct s) ∧
      (construct s).Health = 3 ∧ (construct s).TotalHealth = 3) ∧
    (∀ (s : AUntitledCharacter) (n : Int), s.Health ≤ s.TotalHealth →
      (AddHealth s n).Health ≤ (AddHealth s n).TotalHealth) ∧
    (∀ (s : AUntitledCharacter) (n : Int), HealthInvariant s →
      (s.Health = s.TotalHealth ∨ (0 ≤ s.Health + n ∧ s.Health + n ≤ 2147483647)) →
      HealthInvariant (AddHealth s n)) ∧
    (∀ s : AUntitledCharacter, HealthInvariant s → HealthInvariant (Slide s)) ∧
    (∀ s : AUntitledCharacter, HealthInvariant s → HealthInvariant (StopSliding s)) ∧
    (∀ (s : AUntitledCharacter) (dt : ℚ), HealthInvariant s → HealthInvariant (Tick s dt)) := by
  refine ⟨fun s => ⟨by unfold HealthInvariant construct; simp, rfl, rfl⟩, ?_, ?_, ?_, ?_, ?_⟩
  · intro s n h
    rcases lt_or_le s.Health s.TotalHealth with hlt | hge
    · rw [AddHealth_of_can s n hlt]
      exact min_le_right _ _
    · rw [AddHealth_of_cannot s n hge]
      exact h
  · intro s n hinv hn
    unfold HealthInvariant at hinv
    rcases lt_or_le s.Health s.TotalHealth with hlt | hge
    · have hr : IsInt32 (s.Health + n) := by
        unfold IsInt32
        omega
      rw [AddHealth_of_can s n hlt, wrapInt32_of_IsInt32 _ hr]
      unfold HealthInvariant
      exact ⟨le_min (by omega) (by omega), min_le_right _ _⟩
    · rw [AddHealth_of_cannot s n hge]
      exact hinv
  · intro s h
    unfold HealthInvariant at *
    rw [(Slide_Health s).1, (Slide_Health s).2]
    exact h
  · intro s h
    exact h
  · intro s dt h
    unfold HealthInvariant at *
    rw [(Tick_Health s dt).1, (Tick_Health s dt).2]
    exact h

/-- C8, witness: a heal of 5 from 2 out of 3 keeps the invariant. -/
theorem HealthInvariant_preserved_witness :
    HealthInvariant sampleCharacter ∧ HealthInvariant (AddHealth sampleCharacter 5) ∧
    HealthInvariant (Tick (Slide sampleCharacter) 0) :=
  ⟨by decide,
   HealthInvariant_preserved.2.2.1 sampleCharacter 5 (by decide) (Or.inr (by decide)),
   HealthInvariant_preserved.2.2.2.2.2 (Slide sampleCharacter) 0
     (HealthInvariant_preserved.2.2.2.1 sampleCharacter (by decide))⟩

/-- C8, counterexample: from `Health = 2`, `TotalHealth = 3`, where the
invariant holds, `AddHealth (-5)` gives `Health = -3`. -/
theorem AddHealth_breaks_HealthInvariant :
    HealthInvariant sampleCharacter ∧ IsInt32 (-5) ∧
    (AddHealth sampleCharacter (-5)).Health = -3 ∧
    ¬ HealthInvariant (AddHealth sampleCharacter (-5)) := by
  decide

/-! Slide maneuver -/

/-- C2: from any state, `StopSliding` yields `IsSliding = false` and
`MaxWalkSpeed = 600`, and leaves `SlideSpeed`, `SlideFriction`, `Health` and
`TotalHealth` as they were. -/
theorem StopSliding_contract (s : AUntitledCharacter) :
    (StopSliding s).IsSliding = false ∧
    (StopSliding s).CharacterMovement.MaxWalkSpeed = 600 ∧
    (StopSliding s).SlideSpeed = s.SlideSpeed ∧
    (StopSliding s).SlideFriction = s.SlideFriction ∧
    (StopSliding s).Health = s.Health ∧
    (StopSliding s).TotalHealth = s.TotalHealth :=
  ⟨rfl, rfl, rfl, rfl, rfl, rfl⟩

/-- C3: when the current horizontal speed exceeds 10, `Slide` sets
`SlideFriction = 5`, `SlideSpeed = currentSpeed + 600` and `IsSliding = true`. -/
theorem Slide_above_threshold (s : AUntitledCharacter)
    (h : s.CharacterMovement.VelocitySize2D > 10) :
    (Slide s).SlideFriction = 5 ∧
    (Slide s).SlideSpeed = s.CharacterMovement.VelocitySize2D + 600 ∧
    (Slide s).IsSliding = true := by
  unfold Slide
  simp only [h, if_true]
  exact ⟨trivial, trivial, trivial⟩

/-- C3, witness: at `currentSpeed = 20` the slide starts with
`SlideSpeed = 620`, `SlideFriction = 5`, `IsSliding = true`. -/
theorem Slide_above_threshold_witness :
    (Slide { sampleCharacter with CharacterMovement := ⟨600, 20⟩ }).SlideFriction = 5 ∧
    (Slide { sampleCharacter with CharacterMovement := ⟨600, 20⟩ }).SlideSpeed = 620 ∧
    (Slide { sampleCharacter with CharacterMovement := ⟨600, 20⟩ }).IsSliding = true := by
  have h := Slide_above_threshold { sampleCharacter with CharacterMovement := ⟨600, 20⟩ }
    (by decide)
  refine ⟨h.1, ?_, h.2.2⟩
  rw [h.2.1]
  norm_num

/-- C4: when the current horizontal speed is at most 10, `Slide` sets
`IsSliding = true` and changes nothing else: `SlideSpeed`, `SlideFriction`,
the movement component and the health members keep their values. -/
theorem Slide_below_threshold (s : AUntitledCharacter)
    (h : s.CharacterMovement.VelocitySize2D ≤ 10) :
    (Slide s).IsSliding = true ∧
    (Slide s).SlideSpeed = s.SlideSpeed ∧
    (Slide s).SlideFriction = s.SlideFriction ∧
    (Slide s).CharacterMovement = s.CharacterMovement ∧
    (Slide s).Health = s.Health ∧
    (Slide s).TotalHealth = s.TotalHealth ∧
    Slide s = { s with IsSliding := true } := by
  have hn : ¬ s.CharacterMovement.VelocitySize2D > 10 := not_lt.2 h
  unfold Slide
  simp only [hn, if_false]
  exact ⟨trivial, trivial, trivial, trivial, trivial, trivial, trivial⟩

/-- C4, witness: at `currentSpeed = 5` with prior `SlideSpeed = 37`,
`SlideFriction = 9`. -/
theorem Slide_below_threshold_witness :
    (Slide { sampleCharacter with
      SlideSpeed := 37, SlideFriction := 9, CharacterMovement := ⟨600, 5⟩ }).IsSliding = true ∧
    (Slide { sampleCharacter with
      SlideSpeed := 37, SlideFriction := 9, CharacterMovement := ⟨600, 5⟩ }).SlideSpeed = 37 ∧
    (Slide { sampleCharacter with
      SlideSpeed := 37, SlideFriction := 9, CharacterMovement := ⟨600, 5⟩ }).SlideFriction = 9 :=
  have h := Slide_below_threshold { sampleCharacter with
      SlideSpeed := 37, SlideFriction := 9, CharacterMovement := ⟨600, 5⟩ } (by decide)
  ⟨h.1, h.2.1, h.2.2.1⟩

/-! The per-frame update -/

theorem Tick_not_sliding (s : AUntitledCharacter) (dt : ℚ) (hs : s.IsSliding = false) :
    Tick s dt = s := by
  unfold Tick SuperTick
  simp [hs]

theorem Tick_sliding_nonneg (s : AUntitledCharacter) (dt : ℚ) (hs : s.IsSliding = true)
    (h0 : 0 ≤ s.SlideSpeed) :
    Tick s dt = { s with
      CharacterMovement := { s.CharacterMovement with MaxWalkSpeed := s.SlideSpeed },
      SlideSpeed := s.SlideSpeed - s.SlideFriction,
      SlideFriction := s.SlideFriction + 1 / 20,
      MovementInputs := s.MovementInputs ++ [⟨⟨0, s.ActorRotation.Yaw, 0⟩, 1⟩] } := by
  have hn : ¬ s.SlideSpeed < 0 := not_lt.2 h0
  unfold Tick SuperTick
  simp [hs, hn]

theorem Tick_sliding_neg (s : AUntitledCharacter) (dt : ℚ) (hs : s.IsSliding = true)
    (h0 : s.SlideSpeed < 0) :
    Tick s dt = { s with
      IsSliding := false,
      CharacterMovement := { s.CharacterMovement with MaxWalkSpeed := 0 },
      SlideSpeed := 0 - s.SlideFriction,
      SlideFriction := s.SlideFriction + 1 / 20,
      MovementInputs := s.MovementInputs ++ [⟨⟨0, s.ActorRotation.Yaw, 0⟩, 1⟩] } := by
  unfold Tick SuperTick
  simp [hs, h0]

theorem tickN_not_sliding (dts : ℕ → ℚ) (k : ℕ) (s : AUntitledCharacter)
    (hs : s.IsSliding = false) : tickN dts k s = s := by
  induction k with
  | zero => rfl
  | succ k ih =>
    show Tick (tickN dts k s) (dts k) = s
    rw [ih]
    exact Tick_not_sliding s (dts k) hs

theorem tickN_succ_front (dts : ℕ → ℚ) (k : ℕ) (s : AUntitledCharacter) :
    tickN dts (k + 1) s = tickN (fun i => dts (i + 1)) k (Tick s (dts 0)) := by
  induction k with
  | zero => rfl
  | succ k ih =>
    show Tick (tickN dts (k + 1) s) (dts (k + 1)) = _
    rw [ih]
    rfl

/-- C5: while sliding with `SlideSpeed >= 0`, one `Tick` (any `DeltaTime`) sets
`MaxWalkSpeed` to the old `SlideSpeed`, lowers `SlideSpeed` by `SlideFriction`,
raises `SlideFriction` by `0.05`, keeps `IsSliding`, and requests movement
along the yaw-only rotation of the actor with scale `1.0`. -/
theorem Tick_while_sliding (s : AUntitledCharacter) (dt : ℚ) (hs : s.IsSliding = true)
    (h0 : 0 ≤ s.SlideSpeed) :
    (Tick s dt).CharacterMovement.MaxWalkSpeed = s.SlideSpeed ∧
    (Tick s dt).SlideSpeed = s.SlideSpeed - s.SlideFriction ∧
    (Tick s dt).SlideFriction = s.SlideFriction + 1 / 20 ∧
    (Tick s dt).IsSliding = true ∧
    (Tick s dt).MovementInputs
      = s.MovementInputs ++ [⟨⟨0, s.ActorRotation.Yaw, 0⟩, 1⟩] := by
  rw [Tick_sliding_nonneg s dt hs h0]
  exact ⟨rfl, rfl, rfl, hs, rfl⟩

/-- A character in mid-slide: `SlideSpeed = 620`, `SlideFriction = 5`. -/
def slidingCharacter : AUntitledCharacter :=
  { sampleCharacter with IsSliding := true, SlideSpeed := 620, SlideFriction := 5,
                         CharacterMovement := ⟨600, 20⟩ }

/-- C5, witness: from `SlideSpeed = 620`, `SlideFriction = 5` one update gives
cap `620`, `SlideSpeed = 615`, `SlideFriction = 5.05`. -/
theorem Tick_while_sliding_witness :
    (Tick slidingCharacter (1 / 60)).CharacterMovement.MaxWalkSpeed = 620 ∧
    (Tick slidingCharacter (1 / 60)).SlideSpeed = 615 ∧
    (Tick slidingCharacter (1 / 60)).SlideFriction = 101 / 20 ∧
    (Tick slidingCharacter (1 / 60)).IsSliding = true ∧
    (Tick slidingCharacter (1 / 60)).MovementInputs = [⟨⟨0, 90, 0⟩, 1⟩] := by
  have h := Tick_while_sliding slidingCharacter (1 / 60) rfl (by decide)
  refine ⟨h.1, ?_, ?_, h.2.2.2.1, h.2.2.2.2⟩
  · rw [h.2.1]
    norm_num [slidingCharacter]
  · rw [h.2.2.1]
    norm_num [slidingCharacter]

/-- The state 87 frames (at 60 frames per second) after `Slide` was called at
`currentSpeed = 20`: the first frame that starts with a negative `SlideSpeed`. -/
def slideLastFrame : AUntitledCharacter :=
  tickN (fun _ => 1 / 60) 87 (Slide { sampleCharacter with CharacterMovement := ⟨600, 20⟩ })

set_option maxRecDepth 100000 in
/-- C6, the code at the failing input: 87 frames into a slide started at
`currentSpeed = 20` the character is sliding with `SlideSpeed = -2.05` and
`SlideFriction = 9.35`; the next `Tick` clears `IsSliding` and sets
`MaxWalkSpeed = 0`, but leaves `SlideSpeed = -9.35`, not `0`: the assignment
`SlideSpeed = 0` is followed by `SlideSpeed -= SlideFriction` in the same call. -/
theorem Tick_negative_SlideSpeed_not_zero :
    slideLastFrame.IsSliding = true ∧
    slideLastFrame.SlideSpeed = -41 / 20 ∧
    slideLastFrame.SlideFriction = 187 / 20 ∧
    (Tick slideLastFrame (1 / 60)).IsSliding = false ∧
    (Tick slideLastFrame (1 / 60)).CharacterMovement.MaxWalkSpeed = 0 ∧
    (Tick slideLastFrame (1 / 60)).SlideSpeed = -187 / 20 ∧
    (Tick slideLastFrame (1 / 60)).SlideSpeed ≠ 0 := by
  simp [slideLastFrame, tickN, Tick, SuperTick, Slide, sampleCharacter]
  norm_num

/-- C10: `Tick` changes nothing when `IsSliding` is false; when `IsSliding` is
true it sets `MaxWalkSpeed` to `max SlideSpeed 0`, which is never negative; and
when that `Tick` ends the slide the cap is `0` (not `600`) and every further
sequence of `Tick`s leaves the state, and so the cap, as it is. -/
theorem Tick_MaxWalkSpeed (s : AUntitledCharacter) (dt : ℚ) :
    (s.IsSliding = false → Tick s dt = s) ∧
    (s.IsSliding = true →
      (Tick s dt).CharacterMovement.MaxWalkSpeed = max s.SlideSpeed 0 ∧
      0 ≤ (Tick s dt).CharacterMovement.MaxWalkSpeed) ∧
    (s.IsSliding = true → (Tick s dt).IsSliding = false →
      (Tick s dt).CharacterMovement.MaxWalkSpeed = 0 ∧
      (Tick s dt).CharacterMovement.MaxWalkSpeed ≠ 600 ∧
      ∀ (dts : ℕ → ℚ) (k : ℕ),
        tickN dts k (Tick s dt) = Tick s dt ∧
        (tickN dts k (Tick s dt)).CharacterMovement.MaxWalkSpeed = 0) := by
  refine ⟨Tick_not_sliding s dt, fun hs => ?_, fun hs hend => ?_⟩
  · rcases lt_or_le s.SlideSpeed 0 with hneg | hpos
    · rw [Tick_sliding_neg s dt hs hneg, max_eq_right (le_of_lt hneg)]
      exact ⟨rfl, le_refl _⟩
    · rw [Tick_sliding_nonneg s dt hs hpos, max_eq_left hpos]
      exact ⟨rfl, hpos⟩
  · have hneg : s.SlideSpeed < 0 := by
      by_contra hn
      rw [Tick_sliding_nonneg s dt hs (not_lt.1 hn)] at hend
      exact absurd (hs.symm.trans hend) (by decide)
    have hcap : (Tick s dt).CharacterMovement.MaxWalkSpeed = 0 := by
      rw [Tick_sliding_neg s dt hs hneg]
    refine ⟨hcap, ?_, fun dts k => ?_⟩
    · rw [hcap]
      norm_num
    · rw [tickN_not_sliding dts k (Tick s dt) hend]
      exact ⟨rfl, hcap⟩

/-- C10, witness: a sliding character whose `SlideSpeed` is `-1`; the update
ends the slide with cap `0`, and three more frames keep it there. -/
theorem Tick_MaxWalkSpeed_witness :
    (Tick { slidingCharacter with SlideSpeed := -1 } 0).CharacterMovement.MaxWalkSpeed = 0 ∧
    (tickN (fun _ => 0) 3
      (Tick { slidingCharacter with SlideSpeed := -1 } 0)).CharacterMovement.MaxWalkSpeed = 0 ∧
    Tick sampleCharacter 0 = sampleCharacter :=
  have hend : (Tick { slidingCharacter with SlideSpeed := -1 } 0).IsSliding = false := by
    rw [Tick_sliding_neg _ 0 rfl (by decide)]
  have h := (Tick_MaxWalkSpeed { slidingCharacter with SlideSpeed := -1 } 0).2.2 rfl hend
  ⟨h.1, (h.2.2 (fun _ => 0) 3).2, (Tick_MaxWalkSpeed sampleCharacter 0).1 rfl⟩

/-! Every slide ends -/

/-- The course of a slide over its first `k` frames: sliding throughout, the
`SlideSpeed` non-negative and strictly falling from each frame to the next
until frame `k` starts with a negative `SlideSpeed`, and the update of frame
`k` clears `IsSliding`, after which it stays cleared. -/
def SlideEndsAt (dts : ℕ → ℚ) (s : AUntitledCharacter) (k : ℕ) : Prop :=
  (∀ j, j ≤ k → (tickN dts j s).IsSliding = true) ∧
  (∀ j, j < k → 0 ≤ (tickN dts j s).SlideSpeed ∧
    (tickN dts (j + 1) s).SlideSpeed < (tickN dts j s).SlideSpeed) ∧
  (tickN dts k s).SlideSpeed < 0 ∧
  (∀ j, k < j → (tickN dts j s).IsSliding = false)

theorem SlideEndsAt_zero (dts : ℕ → ℚ) (s : AUntitledCharacter) (hs : s.IsSliding = true)
    (hneg : s.SlideSpeed < 0) : SlideEndsAt dts s 0 := by
  refine ⟨fun j hj => ?_, fun j hj => absurd hj (Nat.not_lt_zero j), hneg, fun j hj => ?_⟩
  · rw [Nat.le_zero.1 hj]
    exact hs
  · obtain ⟨i, rfl⟩ := Nat.exists_eq_succ_of_ne_zero (Nat.pos_iff_ne_zero.1 hj)
    have hend : (Tick s (dts 0)).IsSliding = false := by
      rw [Tick_sliding_neg s (dts 0) hs hneg]
    rw [tickN_succ_front, tickN_not_sliding _ i _ hend]
    exact hend

theorem SlideEndsAt_succ (dts : ℕ → ℚ) (s : AUntitledCharacter) (k : ℕ)
    (hs : s.IsSliding = true) (hpos : 0 ≤ s.SlideSpeed) (hf : 0 < s.SlideFriction)
    (h : SlideEndsAt (fun i => dts (i + 1)) (Tick s (dts 0)) k) :
    SlideEndsAt dts s (k + 1) := by
  obtain ⟨h1, h2, h3, h4⟩ := h
  refine ⟨fun j hj => ?_, fun j hj => ?_, ?_, fun j hj => ?_⟩
  · cases j with
    | zero => exact hs
    | succ i =>
      rw [tickN_succ_front]
      exact h1 i (Nat.le_of_succ_le_succ hj)
  · cases j with
    | zero =>
      refine ⟨hpos, ?_⟩
      show (Tick s (dts 0)).SlideSpeed < s.SlideSpeed
      rw [Tick_sliding_nonneg s (dts 0) hs hpos]
      show s.SlideSpeed - s.SlideFriction < s.SlideSpeed
      linarith
    | succ i =>
      rw [tickN_succ_front dts (i + 1), tickN_succ_front dts i]
      exact h2 i (Nat.lt_of_succ_lt_succ hj)
  · rw [tickN_succ_front]
    exact h3
  · obtain ⟨i, rfl⟩ := Nat.exists_eq_succ_of_ne_zero (Nat.pos_iff_ne_zero.1 (Nat.zero_lt_of_lt hj))
    rw [tickN_succ_front]
    exact h4 i (Nat.lt_of_succ_lt_succ hj)

theorem SlideEndsAt_exists (n : ℕ) :
    ∀ (dts : ℕ → ℚ) (s : AUntitledCharacter), s.IsSliding = true → 5 ≤ s.SlideFriction →
      s.SlideSpeed < 5 * (n : ℚ) → ∃ k, SlideEndsAt dts s k := by
  induction n with
  | zero =>
    intro dts s hs _ hlt
    exact ⟨0, SlideEndsAt_zero dts s hs (by simpa using hlt)⟩
  | succ n ih =>
    intro dts s hs hf hlt
    rcases lt_or_le s.SlideSpeed 0 with hneg | hpos
    · exact ⟨0, SlideEndsAt_zero dts s hs hneg⟩
    · have hT := Tick_sliding_nonneg s (dts 0) hs hpos
      have hs1 : (Tick s (dts 0)).IsSliding = true := by rw [hT]; exact hs
      have hf1 : 5 ≤ (Tick s (dts 0)).SlideFriction := by
        rw [hT]
        show 5 ≤ s.SlideFriction + 1 / 20
        linarith
      have hlt1 : (Tick s (dts 0)).SlideSpeed < 5 * (n : ℚ) := by
        rw [hT]
        show s.SlideSpeed - s.SlideFriction < 5 * (n : ℚ)
        push_cast at hlt
        linarith
      obtain ⟨k, hk⟩ := ih (fun i => dts (i + 1)) (Tick s (dts 0)) hs1 hf1 hlt1
      exact ⟨k + 1, SlideEndsAt_succ dts s k hs hpos (by linarith) hk⟩

/-- C9: a slide started by `Slide` at a speed above 10 and then driven by
`Tick` alone (any `DeltaTime`s) ends: there is a frame `k` up to which the
character slides with `SlideSpeed` strictly falling from frame to frame, frame
`k` is the first to start with a negative `SlideSpeed`, and its `Tick` clears
`IsSliding`, which stays cleared in every later frame. -/
theorem Slide_then_Tick_ends (s : AUntitledCharacter) (dts : ℕ → ℚ)
    (h : s.CharacterMovement.VelocitySize2D > 10) :
    ∃ k : ℕ,
      (∀ j, j ≤ k → (tickN dts j (Slide s)).IsSliding = true) ∧
      (∀ j, j < k → 0 ≤ (tickN dts j (Slide s)).SlideSpeed ∧
        (tickN dts (j + 1) (Slide s)).SlideSpeed < (tickN dts j (Slide s)).SlideSpeed) ∧
      (tickN dts k (Slide s)).SlideSpeed < 0 ∧
      (tickN dts (k + 1) (Slide s)).IsSliding = false ∧
      (∀ j, k < j → (tickN dts j (Slide s)).IsSliding = false) := by
  obtain ⟨hf, _, hs⟩ := Slide_above_threshold s h
  obtain ⟨n, hn⟩ := exists_nat_gt ((Slide s).SlideSpeed / 5)
  have hlt : (Slide s).SlideSpeed < 5 * (n : ℚ) := by
    have := (div_lt_iff₀ (by norm_num : (0 : ℚ) < 5)).1 hn
    linarith
  obtain ⟨k, h1, h2, h3, h4⟩ := SlideEndsAt_exists n dts (Slide s) hs (le_of_eq hf.symm) hlt
  exact ⟨k, h1, h2, h3, h4 (k + 1) (Nat.lt_succ_self k), h4⟩

/-- C9, witness: the slide started at `currentSpeed = 20`. -/
theorem Slide_then_Tick_ends_witness :
    ∃ k : ℕ,
      (tickN (fun _ => 1 / 60) k
        (Slide { sampleCharacter with CharacterMovement := ⟨600, 20⟩ })).SlideSpeed < 0 ∧
      (tickN (fun _ => 1 / 60) (k + 1)
        (Slide { sampleCharacter with CharacterMovement := ⟨600, 20⟩ })).IsSliding = false :=
  (Slide_then_Tick_ends { sampleCharacter with CharacterMovement := ⟨600, 20⟩ }
    (fun _ => 1 / 60) (by decide)).imp fun _ hk => ⟨hk.2.2.1, hk.2.2.2.1⟩

end Untitled
